import Mathlib

/-!
Verification of the command-execution guard in `src/lib/tools.js` of the
`minion` repository: the allowlist/denylist policy (`ALLOWED_COMMANDS`,
`DANGEROUS_PATTERNS`, `isCommandSafe`), the process executor
(`executeCommand`, modelled as a discrete-event trace over an abstract
process behavior), and the façade (`runSafeCommand`).

JavaScript strings are modelled as Lean `String`s; JavaScript regular
expressions (`RegExp.prototype.test`, i.e. unanchored search) are modelled
by a Brzozowski-derivative matcher over an explicit regex AST into which
each of the fourteen `DANGEROUS_PATTERNS` literals is transcribed.
-/

set_option maxRecDepth 10000

namespace Minion

/-- The JavaScript whitespace class `\s` (also the class used by
`String.prototype.trim` and splitting on `/\s+/`): space, tab, LF, VT, FF,
CR, NBSP, and the Unicode space separators recognised by ECMAScript. -/
def jsWs (c : Char) : Bool :=
  c == ' ' || c == '\t' || c == '\n' || c == '\r' || c == '\x0b' || c == '\x0c' ||
  c == '\u00A0' || c == '\u1680' || (decide ('\u2000' ≤ c) && decide (c ≤ '\u200A')) ||
  c == '\u2028' || c == '\u2029' || c == '\u202F' || c == '\u205F' || c == '\u3000' ||
  c == '\uFEFF'

/-- JavaScript `String.prototype.trim`: strip leading and trailing
whitespace. -/
def jsTrim (s : String) : String :=
  String.mk (((s.data.dropWhile jsWs).reverse.dropWhile jsWs).reverse)

/-- One step of `jsSplitWs`, consuming a character from the right: the state
is the list of segments of the suffix processed so far, together with a flag
recording whether that suffix starts with a whitespace character (so that a
maximal whitespace run contributes a single separator). -/
def jsSplitWsStep (c : Char) (st : List (List Char) × Bool) : List (List Char) × Bool :=
  if jsWs c then
    if st.2 then st else ([] :: st.1, true)
  else
    match st.1 with
    | [] => ([[c]], false)
    | s :: rest => ((c :: s) :: rest, false)

/-- JavaScript `s.split(/\s+/)`: segments of `s` separated by maximal
whitespace runs; in particular `"".split` gives `[""]`, and a leading or
trailing separator contributes an empty segment. -/
def jsSplitWs (s : String) : List String :=
  (s.data.foldr jsSplitWsStep ([[]], false)).1.map String.mk

/-- `command.trim().split(/\s+/)[0]` as computed at the top of
`runSafeCommand` in `src/lib/tools.js`. -/
def baseCommandOf (command : String) : String :=
  (jsSplitWs (jsTrim command)).headD ""

/-! ### Regular expressions (model of JavaScript `RegExp`) -/

/-- Regex AST: empty language, empty word, a character class given by a
Boolean predicate, concatenation, alternation, Kleene star. -/
inductive Re : Type where
  | emp : Re
  | eps : Re
  | cls : (Char → Bool) → Re
  | seq : Re → Re → Re
  | alt : Re → Re → Re
  | star : Re → Re

/-- Does the regex accept the empty word? -/
def nullable : Re → Bool
  | .emp => false
  | .eps => true
  | .cls _ => false
  | .seq a b => nullable a && nullable b
  | .alt a b => nullable a || nullable b
  | .star _ => true

/-- Brzozowski derivative with respect to one character. -/
def deriv : Re → Char → Re
  | .emp, _ => .emp
  | .eps, _ => .emp
  | .cls p, c => if p c then .eps else .emp
  | .seq a b, c =>
    if nullable a then .alt (.seq (deriv a c) b) (deriv b c) else .seq (deriv a c) b
  | .alt a b, c => .alt (deriv a c) (deriv b c)
  | .star a, c => .seq (deriv a c) (.star a)

/-- Does some prefix of `l` match `re`? -/
def prefMatch (re : Re) : List Char → Bool
  | [] => nullable re
  | c :: cs => nullable re || prefMatch (deriv re c) cs

/-- Unanchored search, the semantics of JavaScript `RegExp.prototype.test`:
does some contiguous segment of `l` match `re`? -/
def rtest (re : Re) : List Char → Bool
  | [] => nullable re
  | c :: cs => prefMatch re (c :: cs) || rtest re cs

/-- A single literal character. -/
def lit (c : Char) : Re := Re.cls (fun d => d == c)

/-- The class `\s`. -/
def wsC : Re := Re.cls jsWs

/-- The class `.` (any character other than a line terminator). -/
def anyc : Re := Re.cls (fun c => !(c == '\n' || c == '\r' || c == '\u2028' || c == '\u2029'))

/-- `r+` as `r r*`. -/
def plusRe (r : Re) : Re := Re.seq r (Re.star r)

/-- `r?` as `r | ε`. -/
def optRe (r : Re) : Re := Re.alt r Re.eps

/-- The regex matching exactly the given character list. -/
def wordRe (l : List Char) : Re :=
  l.foldr (fun c r => Re.seq (lit c) r) Re.eps

/-- The regex matching exactly the given string literal. -/
def rstr (s : String) : Re := wordRe s.data

/-- Concatenation of a list of regexes. -/
def rcat (l : List Re) : Re := l.foldr Re.seq Re.eps

/-! ### Policy configuration (`src/lib/tools.js`, lines 14-41) -/

/-- `ALLOWED_COMMANDS` from `src/lib/tools.js`: the command allowlist. -/
def ALLOWED_COMMANDS : List String :=
  ["ls", "dir", "pwd", "cd", "cat", "head", "tail", "grep", "find", "which", "whereis",
   "echo", "date", "whoami", "id", "uname", "df", "du", "free", "ps", "top", "htop",
   "curl", "wget", "ping", "nslookup", "dig", "ssh", "scp", "rsync",
   "git", "npm", "yarn", "bun", "node", "python", "python3", "pip", "pip3",
   "docker", "docker-compose", "kubectl", "helm",
   "mkdir", "touch", "cp", "mv", "ln", "chmod", "chown",
   "tar", "zip", "unzip", "gzip", "gunzip",
   "vim", "nano", "emacs", "code", "subl"]

/-- `/rm\s+.*-rf?\s*\//` (rm -rf /). -/
def patRmRf : Re :=
  rcat [rstr "rm", plusRe wsC, Re.star anyc, lit '-', lit 'r', optRe (lit 'f'),
        Re.star wsC, lit '/']

/-- `/:\(\)\{\s*:\|\:&\s*\};\:/` (fork bomb). -/
def patForkBomb : Re :=
  rcat [lit ':', lit '(', lit ')', lit '\x7b', Re.star wsC, lit ':', lit '|',
        lit ':', lit '&', Re.star wsC, lit '\x7d', lit ';', lit ':']

/-- `/>\s*\/dev\/sd[a-z]/` (writing to disk devices). -/
def patDiskWrite : Re :=
  rcat [lit '>', Re.star wsC, rstr "/dev/sd",
        Re.cls (fun c => decide ('a' ≤ c) && decide (c ≤ 'z'))]

/-- `/dd\s+.*of=\/dev/` (dd to devices). -/
def patDdDev : Re :=
  rcat [rstr "dd", plusRe wsC, Re.star anyc, rstr "of=/dev"]

/-- `/del\s+.*\/[sq]/` (Windows delete with force/quiet). -/
def patDelSQ : Re :=
  rcat [rstr "del", plusRe wsC, Re.star anyc, lit '/',
        Re.cls (fun c => c == 's' || c == 'q')]

/-- `/init\s+0/` (shutdown via init). -/
def patInit0 : Re := rcat [rstr "init", plusRe wsC, lit '0']

/-- `/kill\s+-9\s+1/` (kill init process). -/
def patKillInit : Re := rcat [rstr "kill", plusRe wsC, rstr "-9", plusRe wsC, lit '1']

/-- `/killall\s+-9/` (kill all processes). -/
def patKillall : Re := rcat [rstr "killall", plusRe wsC, rstr "-9"]

/-- `DANGEROUS_PATTERNS` from `src/lib/tools.js`, in source order. -/
def DANGEROUS_PATTERNS : List Re :=
  [patRmRf, patForkBomb, patDiskWrite, patDdDev,
   rstr "mkfs", rstr "fdisk", rstr "format",
   patDelSQ,
   rstr "shutdown", rstr "reboot", rstr "halt",
   patInit0, patKillInit, patKillall]

/-- `isCommandSafe(fullCommand, baseCommand)` from `src/lib/tools.js`:
return `false` as soon as one dangerous pattern tests true on the full
command, then `false` when the base command is not in the allowlist,
else `true`. -/
def isCommandSafe (fullCommand baseCommand : String) : Bool :=
  if DANGEROUS_PATTERNS.any (fun p => rtest p fullCommand.data) then
    false
  else if !(ALLOWED_COMMANDS.contains baseCommand) then
    false
  else
    true

/-- The spec's `PolicyVerdict`. -/
inductive PolicyVerdict : Type where
  | ALLOWED : PolicyVerdict
  | BLOCKED : PolicyVerdict
deriving DecidableEq

/-- The spec's `evaluate`: the policy decision exactly as `runSafeCommand`
makes it, passing `isCommandSafe` the raw command string together with the
base command extracted from the trimmed string. -/
def evaluate (command : String) : PolicyVerdict :=
  if isCommandSafe command (baseCommandOf command) then .ALLOWED else .BLOCKED

/-! ### Process executor (`executeCommand`, `src/lib/tools.js` lines 181-258)

`executeCommand` spawns `sh -c command` (or `cmd /c` on Windows) with piped
stdout/stderr, accumulates the stream chunks, arms a 30000 ms timer that on
firing sends SIGTERM and rejects with a timeout error, resolves with the
trimmed accumulated streams when `proc.exited` settles first, wraps a
rejection of `proc.exited` in a "Failed to execute command" message, and
clears the timer in a `finally` handler on `proc.exited`.

The operating-system side is abstracted as a `ProcBehavior`: when (if ever)
the child's `exited` promise would settle on its own and with what, which
chunks arrive on each stream, whether `Bun.spawn` itself throws, and whether
the child terminates when sent SIGTERM. `execCommandModel` is the resulting
observable trace of one `executeCommand` call under that behavior. -/

/-- The fixed timeout of `executeCommand`, in milliseconds. -/
def TIMEOUT_MS : Nat := 30000

/-- Abstract behavior of the spawned child process and of the spawn call. -/
structure ProcBehavior : Type where
  /-- `some msg` when `Bun.spawn` itself throws an error with this message. -/
  spawnError : Option String := none
  /-- `some (t, .ok code)` when `proc.exited` would resolve with `code` at
  `t` ms after spawn; `some (t, .error msg)` when it would reject with `msg`
  at `t` ms; `none` when it would never settle on its own. -/
  exited : Option (Nat × Except String Int) := none
  /-- Chunks arriving on the child's stdout, in order. -/
  stdoutChunks : List String := []
  /-- Chunks arriving on the child's stderr, in order. -/
  stderrChunks : List String := []
  /-- Whether the child terminates when sent SIGTERM (a child may catch or
  ignore the signal). -/
  diesOnSigterm : Bool := true

/-- The value `executeCommand`'s promise resolves with. -/
structure ExecOutput : Type where
  exitCode : Int
  stdout : String
  stderr : String
deriving DecidableEq

/-- Observable trace of one `executeCommand` call: how the promise settles,
whether SIGTERM was sent, whether `clearTimeout` ran on the armed timer, and
whether the child is still running (indefinitely) after the promise has
settled. -/
structure ExecTrace : Type where
  outcome : Except String ExecOutput
  sigtermSent : Bool
  timerCleared : Bool
  childStillRunning : Bool

/-- Discrete-event model of `executeCommand` under a given process
behavior. If `Bun.spawn` throws, the promise rejects with that error and no
timer is ever armed. If `proc.exited` settles before the 30000 ms timer
fires, the promise resolves with `exitCode` and the trimmed accumulated
streams (or, on rejection, rejects with the wrapped message) and the
`finally` handler clears the timer. Otherwise the timer fires first: the
child is sent SIGTERM and the promise rejects with the timeout message; the
code does not wait for the child after signalling it, so a child that
ignores SIGTERM (and never exits on its own) is still running after the
call returns, and the `finally` handler never runs for it. -/
def execCommandModel (b : ProcBehavior) : ExecTrace :=
  match b.spawnError with
  | some msg =>
    { outcome := .error msg, sigtermSent := false, timerCleared := false,
      childStillRunning := false }
  | none =>
    match b.exited with
    | some (t, res) =>
      if t < TIMEOUT_MS then
        match res with
        | .ok code =>
          { outcome := .ok { exitCode := code,
                             stdout := jsTrim (String.join b.stdoutChunks),
                             stderr := jsTrim (String.join b.stderrChunks) },
            sigtermSent := false, timerCleared := true, childStillRunning := false }
        | .error m =>
          { outcome := .error ("Failed to execute command: " ++ m),
            sigtermSent := false, timerCleared := true, childStillRunning := false }
      else
        { outcome := .error "Command timed out after 30 seconds",
          sigtermSent := true, timerCleared := true, childStillRunning := false }
    | none =>
      { outcome := .error "Command timed out after 30 seconds",
        sigtermSent := true, timerCleared := b.diesOnSigterm,
        childStillRunning := !b.diesOnSigterm }

/-! ### Command tool façade (`runSafeCommand`, `src/lib/tools.js` lines 108-162) -/

/-- The result object `runSafeCommand` returns to the tool-calling layer.
JavaScript object fields that a given return site omits are modelled as
`none`. -/
structure ToolResult : Type where
  success : Bool
  error : Option String := none
  output : String
  stderr : String
  exitCode : Option Int := none
  command : Option String := none
deriving DecidableEq

/-- `runSafeCommand(command, config)` from `src/lib/tools.js`: extract the
base command from the trimmed string, return the fixed blocked result when
`isCommandSafe` fails, otherwise run `executeCommand` and map a resolution
to the uniform success shape; the surrounding `try`/`catch` maps any
rejection to the failure shape carrying the error message. -/
def runSafeCommand (command : String) (b : ProcBehavior) : ToolResult :=
  let baseCommand := baseCommandOf command
  if !(isCommandSafe command baseCommand) then
    { success := false, error := some "Command blocked by safety filters",
      output := "", stderr := "" }
  else
    match (execCommandModel b).outcome with
    | .ok r =>
      { success := r.exitCode == 0, exitCode := some r.exitCode,
        output := r.stdout, stderr := r.stderr, command := some command }
    | .error msg =>
      { success := false, error := some msg, output := "", stderr := msg,
        command := some command }

/-- Whether a `runSafeCommand` call reaches `executeCommand` (and so spawns
a child process): in the source this happens exactly when the safety check
passes. -/
def executorInvoked (command : String) : Bool :=
  isCommandSafe command (baseCommandOf command)

/-- A benign process behavior: exits promptly with code 0 and no output. -/
def demoProc : ProcBehavior :=
  { spawnError := none, exited := some (5, .ok 0), stdoutChunks := [],
    stderrChunks := [], diesOnSigterm := true }

/-- A hung process: never exits on its own and ignores SIGTERM. -/
def hungProc : ProcBehavior :=
  { spawnError := none, exited := none, stdoutChunks := [],
    stderrChunks := [], diesOnSigterm := false }

/-- The behavior of `sh -c "echo hello"`: exits immediately with code 0
after writing one stdout chunk. -/
def echoProc : ProcBehavior :=
  { spawnError := none, exited := some (3, .ok 0), stdoutChunks := ["hello\n"],
    stderrChunks := [], diesOnSigterm := true }

/-- A failing spawn: `Bun.spawn` throws. -/
def spawnFailProc : ProcBehavior :=
  { spawnError := some "spawn sh ENOENT", exited := none, stdoutChunks := [],
    stderrChunks := [], diesOnSigterm := true }

/-! ### Regex semantics and completeness of the derivative matcher -/

/-- Declarative semantics of the regex AST. -/
inductive RMatch : Re → List Char → Prop where
  | eps : RMatch .eps []
  | cls {p : Char → Bool} {c : Char} : p c = true → RMatch (.cls p) [c]
  | seqm {a b : Re} {l1 l2 : List Char} :
      RMatch a l1 → RMatch b l2 → RMatch (.seq a b) (l1 ++ l2)
  | altl {a b : Re} {l : List Char} : RMatch a l → RMatch (.alt a b) l
  | altr {a b : Re} {l : List Char} : RMatch b l → RMatch (.alt a b) l
  | starNil {a : Re} : RMatch (.star a) []
  | starCons {a : Re} {l1 l2 : List Char} :
      RMatch a l1 → RMatch (.star a) l2 → RMatch (.star a) (l1 ++ l2)

theorem nullable_of_rmatch {r : Re} {l : List Char} (h : RMatch r l) :
    l = [] → nullable r = true := by
  induction h with
  | eps => intro _; rfl
  | cls _ => intro h'; cases h'
  | seqm h1 h2 ih1 ih2 =>
    intro h'
    rcases List.append_eq_nil.mp h' with ⟨e1, e2⟩
    simp [nullable, ih1 e1, ih2 e2]
  | altl h ih => intro h'; simp [nullable, ih h']
  | altr h ih => intro h'; simp [nullable, ih h']
  | starNil => intro _; rfl
  | starCons h1 h2 ih1 ih2 => intro _; rfl

theorem rmatch_deriv {r : Re} {l : List Char} (h : RMatch r l) :
    ∀ c cs, l = c :: cs → RMatch (deriv r c) cs := by
  induction h with
  | eps => intro c cs h'; cases h'
  | cls hp =>
    intro c cs h'
    injection h' with h1 h2
    subst h1; subst h2
    simpa [deriv, hp] using RMatch.eps
  | seqm h1 h2 ih1 ih2 =>
    intro c cs h'
    rename_i a b l1 l2
    cases l1 with
    | nil =>
      simp only [List.nil_append] at h'
      have hb := ih2 c cs h'
      have na : nullable a = true := nullable_of_rmatch h1 rfl
      simpa [deriv, na] using RMatch.altr hb
    | cons x xs =>
      injection h' with h1' h2'
      subst h1'
      subst h2'
      have ha := ih1 x xs rfl
      by_cases na : nullable a
      · simpa [deriv, na] using RMatch.altl (RMatch.seqm ha h2)
      · simpa [deriv, na] using RMatch.seqm ha h2
  | altl h ih =>
    intro c cs h'
    simpa [deriv] using RMatch.altl (ih c cs h')
  | altr h ih =>
    intro c cs h'
    simpa [deriv] using RMatch.altr (ih c cs h')
  | starNil => intro c cs h'; cases h'
  | starCons h1 h2 ih1 ih2 =>
    intro c cs h'
    rename_i a l1 l2
    cases l1 with
    | nil =>
      simp only [List.nil_append] at h'
      exact ih2 c cs h'
    | cons x xs =>
      injection h' with h1' h2'
      subst h1'
      subst h2'
      have ha := ih1 x xs rfl
      simpa [deriv] using RMatch.seqm ha h2

theorem prefMatch_of_rmatch {r : Re} {p : List Char} (h : RMatch r p) (q : List Char) :
    prefMatch r (p ++ q) = true := by
  induction p generalizing r with
  | nil =>
    have hn := nullable_of_rmatch h rfl
    cases q with
    | nil => simpa [prefMatch] using hn
    | cons c cs => simp [prefMatch, hn]
  | cons c p' ih =>
    have hd := rmatch_deriv h c p' rfl
    simp only [List.cons_append, prefMatch, Bool.or_eq_true]
    exact Or.inr (ih hd)

theorem rtest_of_prefMatch {r : Re} {l : List Char} (h : prefMatch r l = true) :
    rtest r l = true := by
  cases l with
  | nil => simpa [rtest, prefMatch] using h
  | cons c cs => simp [rtest, h]

theorem rtest_cons {r : Re} {c : Char} {cs : List Char} (h : rtest r cs = true) :
    rtest r (c :: cs) = true := by
  simp [rtest, h]

/-- Completeness of `rtest` (for the direction the claims need): a regex
matching some contiguous segment of `l` is found by the unanchored search. -/
theorem rtest_of_seg {r : Re} (pre mid post : List Char) (h : RMatch r mid) :
    rtest r (pre ++ (mid ++ post)) = true := by
  induction pre with
  | nil => exact rtest_of_prefMatch (prefMatch_of_rmatch h post)
  | cons c cs ih => exact rtest_cons ih

theorem rmatch_wordRe (l : List Char) : RMatch (wordRe l) l := by
  induction l with
  | nil => exact RMatch.eps
  | cons c cs ih => exact RMatch.seqm (RMatch.cls (by simp)) ih

/-- Each of the six plain-word dangerous patterns is in the denylist. -/
theorem word_pat_mem {w : String}
    (hw : w ∈ (["mkfs", "fdisk", "format", "shutdown", "reboot", "halt"] : List String)) :
    rstr w ∈ DANGEROUS_PATTERNS := by
  simp only [List.mem_cons, List.not_mem_nil, or_false] at hw
  rcases hw with rfl | rfl | rfl | rfl | rfl | rfl <;> simp [DANGEROUS_PATTERNS]

/-! ### The claims -/

/-- C1: for every command string whose full text matches at least one
denylist pattern, policy evaluation returns BLOCKED, regardless of whether
the base command is in the allowlist. -/
theorem c1_denylist_blocks (cmd : String)
    (h : DANGEROUS_PATTERNS.any (fun p => rtest p cmd.data) = true) :
    evaluate cmd = .BLOCKED := by
  simp [evaluate, isCommandSafe, h]

/-- Witness for C1: `"rm -rf /"` and `"ls && rm -rf /"` match a denylist
pattern and are BLOCKED (the latter has the allowlisted base `ls`). -/
theorem c1_denylist_blocks_witness :
    (DANGEROUS_PATTERNS.any (fun p => rtest p "rm -rf /".data) = true ∧
      evaluate "rm -rf /" = .BLOCKED) ∧
    (DANGEROUS_PATTERNS.any (fun p => rtest p "ls && rm -rf /".data) = true ∧
      ALLOWED_COMMANDS.contains (baseCommandOf "ls && rm -rf /") = true ∧
      evaluate "ls && rm -rf /" = .BLOCKED) :=
  ⟨⟨by decide, c1_denylist_blocks "rm -rf /" (by decide)⟩,
   ⟨by decide, by decide, c1_denylist_blocks "ls && rm -rf /" (by decide)⟩⟩

/-- C2: policy evaluation returns ALLOWED iff the base command (first
whitespace-delimited token of the trimmed string) is in the allowlist and
no denylist pattern matches the full command string; every command whose
base token is absent from the allowlist is BLOCKED. -/
theorem c2_allowed_iff (cmd : String) :
    (evaluate cmd = .ALLOWED ↔
      (ALLOWED_COMMANDS.contains (baseCommandOf cmd) = true ∧
       DANGEROUS_PATTERNS.any (fun p => rtest p cmd.data) = false)) ∧
    (ALLOWED_COMMANDS.contains (baseCommandOf cmd) = false →
      evaluate cmd = .BLOCKED) := by
  constructor
  · unfold evaluate isCommandSafe
    cases hd : DANGEROUS_PATTERNS.any (fun p => rtest p cmd.data) <;>
      cases hc : ALLOWED_COMMANDS.contains (baseCommandOf cmd) <;> simp
  · intro hc
    have hm : baseCommandOf cmd ∉ ALLOWED_COMMANDS := by simpa using hc
    unfold evaluate isCommandSafe
    cases hd : DANGEROUS_PATTERNS.any (fun p => rtest p cmd.data) <;> simp [hm]

/-- Witness for C2: `"ls -la"`, `"git status"`, `"docker ps"` are ALLOWED,
`"sudo ls"` is BLOCKED. -/
theorem c2_allowed_iff_witness :
    evaluate "ls -la" = .ALLOWED ∧ evaluate "git status" = .ALLOWED ∧
    evaluate "docker ps" = .ALLOWED ∧ evaluate "sudo ls" = .BLOCKED :=
  ⟨(c2_allowed_iff "ls -la").1.mpr (by decide),
   (c2_allowed_iff "git status").1.mpr (by decide),
   (c2_allowed_iff "docker ps").1.mpr (by decide),
   (c2_allowed_iff "sudo ls").2 (by decide)⟩

/-- C3: for every command string the policy blocks, `runSafeCommand`
returns exactly the blocked record (success false, the fixed error message,
empty output and stderr, no exit code, no command field) for every possible
executor behavior, and the executor is never invoked on that call. -/
theorem c3_blocked_result (cmd : String) (b : ProcBehavior)
    (h : isCommandSafe cmd (baseCommandOf cmd) = false) :
    runSafeCommand cmd b =
      { success := false, error := some "Command blocked by safety filters",
        output := "", stderr := "", exitCode := none, command := none } ∧
    executorInvoked cmd = false := by
  refine ⟨?_, h⟩
  simp [runSafeCommand, h]

/-- Witness for C3 at the blocked command `"rm -rf /"`. -/
theorem c3_blocked_result_witness :
    runSafeCommand "rm -rf /" demoProc =
      { success := false, error := some "Command blocked by safety filters",
        output := "", stderr := "", exitCode := none, command := none } ∧
    executorInvoked "rm -rf /" = false :=
  c3_blocked_result "rm -rf /" demoProc (by decide)

/-- Counterexample for C4: a child that never exits on its own and ignores
SIGTERM (which a process may catch or ignore) makes the call fail with the
timeout error, yet is still running after the call returns — the code sends
SIGTERM and rejects immediately, without waiting for or escalating on the
child, so "after the call returns the child process is no longer running"
is false. -/
theorem c4_timeout_counterexample :
    (execCommandModel hungProc).outcome =
      .error "Command timed out after 30 seconds" ∧
    (execCommandModel hungProc).sigtermSent = true ∧
    (execCommandModel hungProc).childStillRunning = true :=
  ⟨rfl, rfl, rfl⟩

/-- C4 (amended): if the spawned process has not exited within the fixed
30-second timeout, it is sent SIGTERM and the call fails with the
timeout-specific error (a rejection, never an exit-code result, hence
distinguishable from a non-zero exit); the timer is disarmed on normal
exit; and after the call returns the child is no longer running provided it
terminates on SIGTERM — a child that ignores the signal may remain
running. -/
theorem c4_timeout_amended (b bn : ProcBehavior) (tn : Nat) (cn : Int)
    (hb1 : b.spawnError = none)
    (hb2 : b.exited = none ∨ ∃ t r, b.exited = some (t, r) ∧ TIMEOUT_MS ≤ t)
    (hn1 : bn.spawnError = none) (hn2 : bn.exited = some (tn, .ok cn))
    (hn3 : tn < TIMEOUT_MS) :
    (execCommandModel b).sigtermSent = true ∧
    (execCommandModel b).outcome = .error "Command timed out after 30 seconds" ∧
    (∀ r, (execCommandModel b).outcome ≠ .ok r) ∧
    (b.diesOnSigterm = true → (execCommandModel b).childStillRunning = false) ∧
    (execCommandModel bn).timerCleared = true ∧
    (execCommandModel bn).sigtermSent = false := by
  have hbn : execCommandModel bn =
      { outcome := .ok { exitCode := cn,
                         stdout := jsTrim (String.join bn.stdoutChunks),
                         stderr := jsTrim (String.join bn.stderrChunks) },
        sigtermSent := false, timerCleared := true, childStillRunning := false } := by
    simp [execCommandModel, hn1, hn2, hn3]
  rcases hb2 with hb2 | ⟨t, r, hb2, hle⟩
  · have hb : execCommandModel b =
        { outcome := .error "Command timed out after 30 seconds",
          sigtermSent := true, timerCleared := b.diesOnSigterm,
          childStillRunning := !b.diesOnSigterm } := by
      simp [execCommandModel, hb1, hb2]
    refine ⟨by rw [hb], by rw [hb], ?_, ?_, by rw [hbn], by rw [hbn]⟩
    · intro s; rw [hb]; simp
    · intro hdie; rw [hb]; simp [hdie]
  · have hb : execCommandModel b =
        { outcome := .error "Command timed out after 30 seconds",
          sigtermSent := true, timerCleared := true,
          childStillRunning := false } := by
      simp [execCommandModel, hb1, hb2, Nat.not_lt.mpr hle]
    refine ⟨by rw [hb], by rw [hb], ?_, ?_, by rw [hbn], by rw [hbn]⟩
    · intro s; rw [hb]; simp
    · intro _; rw [hb]

/-- Witness for C4 (amended) at a hung child and a prompt normal exit. -/
theorem c4_timeout_amended_witness :
    (execCommandModel hungProc).sigtermSent = true ∧
    (execCommandModel hungProc).outcome =
      .error "Command timed out after 30 seconds" ∧
    (execCommandModel demoProc).timerCleared = true ∧
    (execCommandModel demoProc).sigtermSent = false := by
  have h := c4_timeout_amended hungProc demoProc 5 0 rfl (Or.inl rfl) rfl rfl
    (by decide)
  exact ⟨h.1, h.2.1, h.2.2.2.2.1, h.2.2.2.2.2⟩

/-- C5: on every allowed command, `runSafeCommand` propagates no exception:
every executor failure (spawn failure or timeout rejection) is converted to
the failure record (success false, the error message also as stderr, empty
output, the command), and every resolution is mapped to the uniform success
record. -/
theorem c5_no_exception (cmd : String) (b : ProcBehavior)
    (hsafe : isCommandSafe cmd (baseCommandOf cmd) = true) :
    (∀ msg, (execCommandModel b).outcome = .error msg →
      runSafeCommand cmd b =
        { success := false, error := some msg, output := "", stderr := msg,
          command := some cmd, exitCode := none }) ∧
    (∀ r, (execCommandModel b).outcome = .ok r →
      runSafeCommand cmd b =
        { success := r.exitCode == 0, exitCode := some r.exitCode,
          output := r.stdout, stderr := r.stderr, command := some cmd,
          error := none }) := by
  constructor
  · intro msg hmsg
    simp [runSafeCommand, hsafe, hmsg]
  · intro r hr
    simp [runSafeCommand, hsafe, hr]

/-- Witness for C5: a spawn failure on the allowed command `"pwd"` yields
the failure record with the error message mirrored into stderr. -/
theorem c5_no_exception_witness :
    runSafeCommand "pwd" spawnFailProc =
      { success := false, error := some "spawn sh ENOENT", output := "",
        stderr := "spawn sh ENOENT", command := some "pwd", exitCode := none } :=
  (c5_no_exception "pwd" spawnFailProc (by decide)).1 "spawn sh ENOENT" rfl

/-- C6: when an allowed command's process exits normally, the result has
success iff the exit code is 0, with stdout and stderr reported as the
whitespace-trimmed accumulated streams. -/
theorem c6_normal_exit (cmd : String) (b : ProcBehavior) (t : Nat) (code : Int)
    (hsafe : isCommandSafe cmd (baseCommandOf cmd) = true)
    (hspawn : b.spawnError = none)
    (hexit : b.exited = some (t, .ok code)) (ht : t < TIMEOUT_MS) :
    runSafeCommand cmd b =
      { success := code == 0, exitCode := some code,
        output := jsTrim (String.join b.stdoutChunks),
        stderr := jsTrim (String.join b.stderrChunks),
        command := some cmd, error := none } ∧
    ((code == 0) = true ↔ code = 0) := by
  constructor
  · simp [runSafeCommand, hsafe, execCommandModel, hspawn, hexit, ht]
  · simp

/-- Witness for C6: executing the allowed `"echo hello"` (child exits with
code 0 after one stdout chunk `"hello\n"`) yields success with output
`"hello"` and empty stderr. -/
theorem c6_normal_exit_witness :
    runSafeCommand "echo hello" echoProc =
      { success := true, exitCode := some 0, output := "hello", stderr := "",
        command := some "echo hello", error := none } := by
  have h := (c6_normal_exit "echo hello" echoProc 3 0 (by decide) rfl rfl
    (by decide)).1
  exact h.trans (by decide)

/-- Counterexample for C7: a denylist-blocked command (`"rm -rf /"`) and an
allowlist-miss (`"sudo ls"`) produce identical results whose error is the
fixed string `"Command blocked by safety filters"` — the code's
`isCommandSafe` returns a bare boolean, so no reason distinguishing the
cause (`"matches dangerous pattern"` vs `"command not in allowlist"`)
exists or is reported. -/
theorem c7_reason_counterexample :
    runSafeCommand "rm -rf /" demoProc = runSafeCommand "sudo ls" demoProc ∧
    (runSafeCommand "rm -rf /" demoProc).error =
      some "Command blocked by safety filters" ∧
    (runSafeCommand "rm -rf /" demoProc).error ≠ some "matches dangerous pattern" ∧
    (runSafeCommand "sudo ls" demoProc).error ≠ some "command not in allowlist" :=
  ⟨by decide, by decide, by decide, by decide⟩

/-- C7 (amended): every blocked command is reported to the caller with the
single fixed reason `"Command blocked by safety filters"`, identical for
denylist matches and allowlist misses; the cause is not distinguished. -/
theorem c7_reason_amended (cmd : String) (b : ProcBehavior)
    (h : isCommandSafe cmd (baseCommandOf cmd) = false) :
    (runSafeCommand cmd b).error = some "Command blocked by safety filters" := by
  simp [runSafeCommand, h]

/-- Witness for C7 (amended) at the denylist-blocked `"shutdown -h now"`. -/
theorem c7_reason_amended_witness :
    (runSafeCommand "shutdown -h now" demoProc).error =
      some "Command blocked by safety filters" :=
  c7_reason_amended "shutdown -h now" demoProc (by decide)

/-- Counterexample for C8: the result for the blocked command
`"sudo whoami"` has no `command` field (the blocked return site in
`runSafeCommand` omits it), so `command` is not present in every result. -/
theorem c8_command_field_counterexample :
    (runSafeCommand "sudo whoami" demoProc).command = none := by decide

/-- C8 (amended): results for allowed commands carry the original command
string in the `command` field, but results for blocked commands omit it. -/
theorem c8_command_field_amended (cmd : String) (b : ProcBehavior) :
    (isCommandSafe cmd (baseCommandOf cmd) = true →
      (runSafeCommand cmd b).command = some cmd) ∧
    (isCommandSafe cmd (baseCommandOf cmd) = false →
      (runSafeCommand cmd b).command = none) := by
  constructor
  · intro h
    cases ho : (execCommandModel b).outcome <;> simp [runSafeCommand, h, ho]
  · intro h
    simp [runSafeCommand, h]

/-- Witness for C8 (amended): allowed `"pwd"` carries its command string,
blocked `"sudo whoami"` has none. -/
theorem c8_command_field_amended_witness :
    (runSafeCommand "pwd" demoProc).command = some "pwd" ∧
    (runSafeCommand "sudo whoami" demoProc).command = none :=
  ⟨(c8_command_field_amended "pwd" demoProc).1 (by decide),
   (c8_command_field_amended "sudo whoami" demoProc).2 (by decide)⟩

/-- C9: the denylist patterns match as unanchored substrings, so every
command string containing `"mkfs"`, `"fdisk"`, `"format"`, `"shutdown"`,
`"reboot"` or `"halt"` anywhere is BLOCKED, even when the occurrence is
incidental and the base command is allowlisted. -/
theorem c9_substring_blocks (cmd w : String)
    (hw : w ∈ (["mkfs", "fdisk", "format", "shutdown", "reboot", "halt"] : List String))
    (pre post : List Char) (hsub : cmd.data = pre ++ (w.data ++ post)) :
    evaluate cmd = .BLOCKED := by
  have hmem := word_pat_mem hw
  have htest : rtest (rstr w) cmd.data = true := by
    rw [hsub]
    exact rtest_of_seg pre w.data post (rmatch_wordRe w.data)
  have hany : DANGEROUS_PATTERNS.any (fun p => rtest p cmd.data) = true :=
    List.any_eq_true.mpr ⟨rstr w, hmem, htest⟩
  simp [evaluate, isCommandSafe, hany]

/-- Witness for C9: `"git log --format=oneline"` (contains `"format"`) and
`"grep halt notes.txt"` (contains `"halt"`) are BLOCKED although their base
commands `git` and `grep` are allowlisted. -/
theorem c9_substring_blocks_witness :
    evaluate "git log --format=oneline" = .BLOCKED ∧
    evaluate "grep halt notes.txt" = .BLOCKED :=
  ⟨c9_substring_blocks "git log --format=oneline" "format" (by decide)
     "git log --".data "=oneline".data (by decide),
   c9_substring_blocks "grep halt notes.txt" "halt" (by decide)
     "grep ".data " notes.txt".data (by decide)⟩

/-- C10: for an empty or whitespace-only command string, `runSafeCommand`
does not throw and does not spawn a process; the extracted base token is
the empty string, which is not in the allowlist, and the call returns the
blocked result. -/
theorem c10_empty_command (cmd : String) (b : ProcBehavior)
    (h : jsTrim cmd = "") :
    baseCommandOf cmd = "" ∧
    ALLOWED_COMMANDS.contains "" = false ∧
    runSafeCommand cmd b =
      { success := false, error := some "Command blocked by safety filters",
        output := "", stderr := "", exitCode := none, command := none } ∧
    executorInvoked cmd = false := by
  have hbase : baseCommandOf cmd = "" := by
    unfold baseCommandOf jsSplitWs
    rw [h]
    decide
  have hc : ALLOWED_COMMANDS.contains ("" : String) = false := by decide
  have hm : ("" : String) ∉ ALLOWED_COMMANDS := by decide
  have hsafe : isCommandSafe cmd (baseCommandOf cmd) = false := by
    rw [hbase]
    unfold isCommandSafe
    cases hd : DANGEROUS_PATTERNS.any (fun p => rtest p cmd.data) <;> simp [hm]
  refine ⟨hbase, hc, ?_, hsafe⟩
  simp [runSafeCommand, hsafe]

/-- Witness for C10 at the empty string and a three-space string. -/
theorem c10_empty_command_witness :
    (baseCommandOf "" = "" ∧
     runSafeCommand "" demoProc =
       { success := false, error := some "Command blocked by safety filters",
         output := "", stderr := "", exitCode := none, command := none }) ∧
    (baseCommandOf "   " = "" ∧
     runSafeCommand "   " demoProc =
       { success := false, error := some "Command blocked by safety filters",
         output := "", stderr := "", exitCode := none, command := none }) := by
  have h1 := c10_empty_command "" demoProc (by decide)
  have h2 := c10_empty_command "   " demoProc (by decide)
  exact ⟨⟨h1.1, h1.2.2.1⟩, ⟨h2.1, h2.2.2.1⟩⟩

end Minion
